import Mathlib

/-!
Verification of the offline request-caching and retry subsystem of the
Krishi Mitra PWA, a shallow embedding of `src/frontend/public/custom-sw.js`
(the Workbox-based service worker): route matching, the GET data-route
handler with its cache fallback, the POST advice handler with its
background-sync queue, the manual prefetch trigger, and the control-channel
message listeners.
-/

set_option autoImplicit false

namespace KrishiMitra

/-- An HTTP response as the service worker sees it: status code, headers and
body (bodies are modelled as strings; the subsystem never inspects them). -/
structure SWResponse where
  status : Nat
  headers : List (String × String)
  body : String
deriving DecidableEq

/-- An HTTP request description: URL, method, headers, body, and the two
fetch-options the advice handler manipulates (`mode`, `credentials`). -/
structure SWRequest where
  url : String
  method : String
  headers : List (String × String)
  body : String
  mode : String
  credentials : String
deriving DecidableEq

/-- A thrown JavaScript error, distinguishing a `TypeError` raised by the
language runtime from a network-layer fetch failure. -/
inductive JsError where
  | typeError (msg : String)
  | networkError (msg : String)
deriving DecidableEq

/-- One named cache partition (e.g. `"api-data"`): an association list from
request URL to stored response, most recently stored first. -/
abbrev Cache := List (String × SWResponse)

/-- `cache.match(url)`: the first stored response keyed by exactly `url`. -/
def cacheMatch : Cache → String → Option SWResponse
  | [], _ => none
  | (k, r) :: rest, u => if k = u then some r else cacheMatch rest u

/-- Remove every entry stored under key `u`. -/
def eraseKey : Cache → String → Cache
  | [], _ => []
  | (k, r) :: rest, u => if k = u then eraseKey rest u else (k, r) :: eraseKey rest u

/-- `cache.put(url, response)`: store `r` under `u`, overwriting any prior
entry for `u`. -/
def cachePut (c : Cache) (u : String) (r : SWResponse) : Cache :=
  (u, r) :: eraseKey c u

/-! ## The GET data-route matcher (custom-sw.js lines 30-52)

```js
workbox.routing.registerRoute(
  ({ url, request }) =>
    request.method === 'GET' &&
    url.pathname.match(/^\/(weather|market|calendar|advisories)$/) ||
    url.pathname.match(/^\/backend\/(weather|market|calendar|advisories)/),
  async ({ event }) => { ... },
  'GET'
);
```

JavaScript `&&` binds tighter than `||`, so the capture predicate is
`(method === 'GET' && exactMatch) || backendMatch`. The first regex is
anchored at both ends (the pathname must equal `/weather` etc.); the second
is anchored only at the start (the pathname must begin with
`/backend/weather` etc., with any continuation). The third argument `'GET'`
makes the Workbox router consider this route only for GET requests. -/

/-- `pre` is a literal prefix of `s` (what a start-anchored regex literal
tests). -/
def strStartsWith (pre s : String) : Bool :=
  pre.data.isPrefixOf s.data

/-- `suf` is a literal suffix of `s` (used only to state the spec claim
about paths "ending with" a data segment). -/
def strEndsWith (suf s : String) : Bool :=
  suf.data.isSuffixOf s.data

/-- The four allow-listed data segments. -/
def dataSegments : List String := ["weather", "market", "calendar", "advisories"]

/-- `url.pathname.match(/^\/(weather|market|calendar|advisories)$/)`:
the pathname equals one of the four data paths exactly. -/
def matchExactDataPath (p : String) : Bool :=
  dataSegments.any (fun s => p == "/" ++ s)

/-- `url.pathname.match(/^\/backend\/(weather|market|calendar|advisories)/)`:
the pathname begins with `/backend/` followed by a data segment (no end
anchor: any continuation is accepted). -/
def matchBackendDataPath (p : String) : Bool :=
  dataSegments.any (fun s => strStartsWith ("/backend/" ++ s) p)

/-- The capture predicate of the data route, with JavaScript's `&&`-over-`||`
precedence. -/
def dataRouteCapture (method p : String) : Bool :=
  (method == "GET" && matchExactDataPath p) || matchBackendDataPath p

/-- Whether the data route matches a request: the Workbox router restricts
the route to method `'GET'` (third `registerRoute` argument) and then
evaluates the capture predicate. -/
def dataRouteMatches (method p : String) : Bool :=
  method == "GET" && dataRouteCapture method p

/-! ## The GET data-route handler (custom-sw.js lines 35-50)

```js
async ({ event }) => {
  try {
    return await workbox.strategies.StaleWhileRevalidate({
      cacheName: 'api-data',
      plugins: [ new workbox.expiration.ExpirationPlugin({ maxEntries: 30, maxAgeSeconds: 24 * 60 * 60 }) ],
    }).handle({ event });
  } catch (err) {
    // Fallback to last cached response if offline
    const cache = await caches.open('api-data');
    const cached = await cache.match(event.request);
    if (cached) return cached;
    throw err;
  }
}
```

The `try` block invokes `workbox.strategies.StaleWhileRevalidate` WITHOUT
`new` (contrast lines 13 and 21, which write
`new workbox.strategies.StaleWhileRevalidate(...)` and
`new workbox.strategies.CacheFirst(...)`). Workbox v5+ ships ES2015-only
builds, so `StaleWhileRevalidate` is an ES2015 class and invoking it without
`new` throws `TypeError: Class constructor StaleWhileRevalidate cannot be
invoked without 'new'` before `.handle` is reached: the strategy never runs,
no network fetch is issued and nothing is written to the cache. Control
always falls into the `catch` block, whose `err` is that TypeError; the
handler then returns the cached entry when one exists and otherwise rethrows
the TypeError. The embedding below records the network calls the handler
makes in `fetches` (always empty for the as-written handler). -/

/-- The TypeError thrown by invoking the ES2015 class
`workbox.strategies.StaleWhileRevalidate` without `new` (line 37). -/
def strategyInvocationError : JsError :=
  .typeError "Class constructor StaleWhileRevalidate cannot be invoked without new"

/-- Outcome of running a data-route handler: the value returned or error
thrown, the resulting "api-data" cache partition, and the list of URLs
fetched over the network during handling. -/
structure DataHandlerResult where
  result : Except JsError SWResponse
  cache : Cache
  fetches : List String

/-- The GET data-route handler as written (lines 35-50): the strategy
invocation throws `strategyInvocationError` before any fetch, the `catch`
block serves the cached entry for the request URL when present and otherwise
rethrows; in every case the cache is left unchanged and no fetch happens. -/
def dataRouteHandler (net : String → Except JsError SWResponse) (cache : Cache)
    (url : String) : DataHandlerResult :=
  match cacheMatch cache url with
  | some r => ⟨.ok r, cache, []⟩
  | none => ⟨.error strategyInvocationError, cache, []⟩

/-- Modelled from the spec: the intended stale-while-revalidate read-through
of §4.2 (what line 37 would do with `new`): serve the cached entry when
present, always issue the network fetch, store a successful fetch result
under the request URL, propagate the network error on a cache miss. Used
only to exhibit where the as-written handler diverges from it. -/
def specReadThrough (net : String → Except JsError SWResponse) (cache : Cache)
    (url : String) : DataHandlerResult :=
  match cacheMatch cache url, net url with
  | some r, .ok fresh => ⟨.ok r, cachePut cache url fresh, [url]⟩
  | some r, .error _ => ⟨.ok r, cache, [url]⟩
  | none, .ok fresh => ⟨.ok fresh, cachePut cache url fresh, [url]⟩
  | none, .error e => ⟨.error e, cache, [url]⟩

/-- A stored response for `/weather`. -/
def respOld : SWResponse := ⟨200, [("Content-Type", "application/json")], "old-weather-json"⟩

/-- A fresher response the network would return for `/weather`. -/
def respFresh : SWResponse := ⟨200, [("Content-Type", "application/json")], "fresh-weather-json"⟩

/-- An "api-data" partition holding one prior entry for `/weather`. -/
def cacheOne : Cache := [("/weather", respOld)]

/-- A network on which every fetch succeeds with `respFresh`. -/
def netOk : String → Except JsError SWResponse := fun _ => .ok respFresh

/-- A network on which every fetch fails (network unreachable). -/
def netDown : String → Except JsError SWResponse :=
  fun _ => .error (.networkError "Failed to fetch")

/-! ## The POST advice handler (custom-sw.js lines 54-103)

```js
const adviceQueue = new workbox.backgroundSync.Queue('adviceQueue', {
  maxRetentionTime: 24 * 60, // Retry for max 24 hours
});

const getApiUrl = () => {
  if (self.location.hostname === 'localhost') { return 'http://localhost:5001'; }
  return process.env.NEXT_PUBLIC_API_URL || 'https://krishi-mitra-backend.onrender.com';
};

workbox.routing.registerRoute(
  ({ url, request }) =>
    request.method === 'POST' &&
    (url.pathname === '/backend/advice' || url.pathname.endsWith('/advice')),
  async ({ event }) => {
    try {
      let requestUrl = event.request.url;
      if (event.request.url.includes('/backend/advice')) {
        requestUrl = event.request.url.replace('/backend/advice', `$\x7bgetApiUrl()\x7d/advice`);
      }
      const modifiedRequest = new Request(requestUrl, {
        method: event.request.method,
        headers: event.request.headers,
        body: event.request.body,
        mode: 'cors',
        credentials: 'include'
      });
      return await fetch(modifiedRequest);
    } catch (error) {
      await adviceQueue.pushRequest({ request: event.request });
      return new Response(JSON.stringify({
        queued: true,
        message: 'You are offline. Your advice will be sent when back online.'
      }), { headers: { 'Content-Type': 'application/json' }, status: 202 });
    }
  },
  'POST'
);
```
-/

/-- `getApiUrl()` (lines 60-68): a fixed local port on the `localhost`
hostname, otherwise the configured production origin with a fallback
(`envApiUrl` models `process.env.NEXT_PUBLIC_API_URL`, absent when unset). -/
def getApiUrl (hostname : String) (envApiUrl : Option String) : String :=
  if hostname == "localhost" then "http://localhost:5001"
  else envApiUrl.getD "https://krishi-mitra-backend.onrender.com"

/-- Split `s` around the first occurrence of `pat`: `some (before, after)`
when `pat` occurs in `s`, `none` otherwise. -/
def findSplit (pat : List Char) : List Char → Option (List Char × List Char)
  | [] => if pat = [] then some ([], []) else none
  | c :: rest =>
    if pat.isPrefixOf (c :: rest) then some ([], (c :: rest).drop pat.length)
    else
      match findSplit pat rest with
      | some (b, a) => some (c :: b, a)
      | none => none

/-- JavaScript `s.includes(pat)`. -/
def strIncludes (s pat : String) : Bool :=
  (findSplit pat.data s.data).isSome

/-- JavaScript `s.replace(pat, repl)` with a string pattern: replace the
first occurrence of `pat` (the replacement contains no `$` patterns). -/
def replaceFirst (s pat repl : String) : String :=
  match findSplit pat.data s.data with
  | some (b, a) => ⟨b ++ repl.data ++ a⟩
  | none => s

/-- The advice-route capture predicate (lines 71-73) combined with the
router's `'POST'` method restriction: method is POST and the pathname is
`/backend/advice` or ends with `/advice`. -/
def adviceRouteMatches (method p : String) : Bool :=
  method == "POST" && (p == "/backend/advice" || strEndsWith "/advice" p)

/-- The URL-rewriting step (lines 77-80): when the request URL contains
`/backend/advice`, replace that first occurrence with `getApiUrl() ++
"/advice"`; otherwise keep the URL. -/
def rewriteAdviceUrl (hostname : String) (env : Option String) (url : String) : String :=
  if strIncludes url "/backend/advice" then
    replaceFirst url "/backend/advice" (getApiUrl hostname env ++ "/advice")
  else url

/-- `modifiedRequest` construction (lines 82-88): same method, headers and
body as the original request, the rewritten URL, and `mode`/`credentials`
set unconditionally to `'cors'`/`'include'`. -/
def modifiedRequest (hostname : String) (env : Option String) (r : SWRequest) : SWRequest :=
  { url := rewriteAdviceUrl hostname env r.url
    method := r.method
    headers := r.headers
    body := r.body
    mode := "cors"
    credentials := "include" }

/-- An entry of the background-sync queue: the captured request plus its
enqueue timestamp in milliseconds (what `Queue.pushRequest` records). -/
structure QueueEntry where
  request : SWRequest
  timestamp : Nat
deriving DecidableEq

/-- The exact body produced by `JSON.stringify(\x7b queued: true, message:
'You are offline. Your advice will be sent when back online.' \x7d)`
(lines 93-96): no whitespace between tokens. -/
def queuedBodyString : String :=
  "\x7b\"queued\":true,\"message\":\"You are offline. Your advice will be sent when back online.\"\x7d"

/-- The queued acknowledgement `Response` (lines 93-99): status 202,
`Content-Type: application/json`, body `queuedBodyString`. -/
def queuedResponse : SWResponse :=
  ⟨202, [("Content-Type", "application/json")], queuedBodyString⟩

/-- The POST advice handler (lines 74-101): fetch the rewritten request;
on success return the live response with the queue untouched; on a thrown
error append one entry capturing the original (non-rewritten) request to
`adviceQueue` (with the current time `now` as its enqueue timestamp) and
return `queuedResponse`. The handler is total: no error escapes it. -/
def adviceHandler (hostname : String) (env : Option String)
    (net : SWRequest → Except JsError SWResponse)
    (queue : List QueueEntry) (now : Nat) (req : SWRequest) :
    SWResponse × List QueueEntry :=
  match net (modifiedRequest hostname env req) with
  | .ok resp => (resp, queue)
  | .error _ => (queuedResponse, queue ++ [⟨req, now⟩])

/-! ## Background-sync queue replay (workbox-background-sync semantics)

The repository configures `new workbox.backgroundSync.Queue('adviceQueue',
\x7b maxRetentionTime: 24 * 60 \x7d)` (lines 55-57; the unit is minutes).
The replay loop below embeds the Workbox `Queue.replayRequests` contract
that this configuration parameterises: entries are processed oldest-first
(FIFO); `shiftRequest` silently discards any entry whose age
`now - entry.timestamp` exceeds `maxRetentionTime` minutes (in ms) without
fetching it; a successful fetch removes the entry and the loop continues; a
failed fetch puts the entry back at the head and aborts the replay, leaving
the remainder queued for the next trigger. Entries enter the queue only by
appending with the then-current time, so a queue's timestamps are
nondecreasing from head to tail (`TimestampSorted`). -/

/-- `maxRetentionTime: 24 * 60` (line 56), in minutes. -/
def maxRetentionTime : Nat := 24 * 60

/-- The retention window in milliseconds, as Workbox computes it:
`maxRetentionTime * 60 * 1000`. -/
def maxRetentionMs : Nat := maxRetentionTime * 60 * 1000

/-- One replay pass over the queue at time `now`: returns the remaining
queue and the list of requests for which a network replay was attempted. -/
def replayQueue (net : SWRequest → Except JsError SWResponse) (now : Nat) :
    List QueueEntry → List QueueEntry × List SWRequest
  | [] => ([], [])
  | e :: rest =>
    if maxRetentionMs < now - e.timestamp then
      replayQueue net now rest
    else
      match net e.request with
      | .ok _ =>
        let res := replayQueue net now rest
        (res.1, e.request :: res.2)
      | .error _ => (e :: rest, [e.request])

/-- Queue timestamps are nondecreasing from head to tail (entries are
appended with the current time). -/
def TimestampSorted (q : List QueueEntry) : Prop :=
  List.Pairwise (fun a b => a.timestamp ≤ b.timestamp) q

/-! ## Control-channel messages and the manual prefetch trigger
(custom-sw.js lines 6-8 and 106-127)

```js
self.addEventListener('message', (event) => {
  if (event.data && event.data.type === 'SKIP_WAITING') self.skipWaiting();
});

self.addEventListener('message', async (event) => {
  if (event.data && event.data.type === 'PRECACHE_LATEST_DATASETS') {
    const apiUrl = getApiUrl();
    const datasets = [
      `$\x7bapiUrl\x7d/weather?district=Kanpur`,
      `$\x7bapiUrl\x7d/market?crop=Wheat&market=Kanpur&days=7`,
      `$\x7bapiUrl\x7d/advisories?district=Kanpur&crop=Wheat`,
    ];
    await Promise.all(
      datasets.map(async (url) => {
        try { await caches.open('api-data').then((cache) => cache.add(url)); }
        catch (e) {}
      })
    );
    self.clients.matchAll().then((clients) => {
      clients.forEach((client) => client.postMessage({ type: 'OFFLINE_READY' }));
    });
  }
});
```

Neither listener references `adviceQueue` or any other state: a message
that matches neither guard leaves the caches, the queue and the worker
lifecycle untouched and posts nothing. -/

/-- The prefetch manifest (lines 109-113): three URLs with hard-coded
query parameters (district `Kanpur`, crop `Wheat`, market `Kanpur`,
window 7 days). -/
def datasets (apiUrl : String) : List String :=
  [apiUrl ++ "/weather?district=Kanpur",
   apiUrl ++ "/market?crop=Wheat&market=Kanpur&days=7",
   apiUrl ++ "/advisories?district=Kanpur&crop=Wheat"]

/-- `cache.add(url)` (line 117): fetch `url` and store the response under
key `url` when the fetch succeeds with an ok (2xx) status; `cache.add`
rejects otherwise, and the surrounding `try/catch` swallows the rejection,
leaving the cache unchanged for that URL. -/
def cacheAdd (net : String → Except JsError SWResponse) (cache : Cache) (u : String) : Cache :=
  match net u with
  | .ok r => if 200 ≤ r.status ∧ r.status < 300 then cachePut cache u r else cache
  | .error _ => cache

/-- The per-URL best-effort prefetch loop (lines 114-120): attempt
`cacheAdd` for every manifest URL, swallowing individual failures. -/
def precacheDatasets (net : String → Except JsError SWResponse) :
    Cache → List String → Cache
  | cache, [] => cache
  | cache, u :: rest => precacheDatasets net (cacheAdd net cache u) rest

/-- A user profile as the spec describes it: a district and a default crop. -/
structure UserProfile where
  district : String
  defaultCrop : String
deriving DecidableEq

/-- Modelled from the spec: "PrefetchManifest: an ephemeral list of URLs
(derived from current user profile: district, default crop)" — the manifest
the spec claims the trigger builds, with the weather, market and advisories
URLs parameterised by the profile's district and default crop. Used only to
compare against the `datasets` manifest the code actually builds. -/
def specProfileManifest (apiUrl : String) (p : UserProfile) : List String :=
  [apiUrl ++ "/weather?district=" ++ p.district,
   apiUrl ++ "/market?crop=" ++ p.defaultCrop ++ "&market=Kanpur&days=7",
   apiUrl ++ "/advisories?district=" ++ p.district ++ "&crop=" ++ p.defaultCrop]

/-- The combined effect of delivering one control-channel message to both
listeners: `data` is `none` when `event.data` is absent and `some t` when
`event.data.type` is `t`. Returns the resulting "api-data" partition, the
messages posted to clients (client id paired with message type), and
whether `skipWaiting()` was invoked. -/
def handleMessage (net : String → Except JsError SWResponse) (apiUrl : String)
    (clients : List Nat) (cache : Cache) (data : Option String) :
    Cache × List (Nat × String) × Bool :=
  let skip := data == some "SKIP_WAITING"
  if data == some "PRECACHE_LATEST_DATASETS" then
    (precacheDatasets net cache (datasets apiUrl),
     clients.map (fun c => (c, "OFFLINE_READY")), skip)
  else (cache, [], skip)

/-! ## Concrete inputs used by witnesses and counterexamples -/

/-- A network of requests on which every fetch fails (network unreachable). -/
def netDownReq : SWRequest → Except JsError SWResponse :=
  fun _ => .error (.networkError "Failed to fetch")

/-- A concrete advice submission through the `/backend/` proxy prefix, with
the browser-default `same-origin` credentials mode. -/
def reqAdvice : SWRequest :=
  { url := "/backend/advice"
    method := "POST"
    headers := [("Content-Type", "application/json")]
    body := "\x7b\"question\":\"When to sow wheat?\"\x7d"
    mode := "cors"
    credentials := "same-origin" }

/-- A network on which exactly the market dataset fetch fails and every
other fetch succeeds with `respFresh`. -/
def netPartial : String → Except JsError SWResponse :=
  fun u =>
    if strIncludes u "/market" then .error (.networkError "Failed to fetch")
    else .ok respFresh

/-! ## Helper lemmas -/

theorem cacheMatch_put_self (c : Cache) (u : String) (r : SWResponse) :
    cacheMatch (cachePut c u r) u = some r := by
  simp [cachePut, cacheMatch]

theorem cacheMatch_eraseKey_ne (c : Cache) {u v : String} (h : u ≠ v) :
    cacheMatch (eraseKey c v) u = cacheMatch c u := by
  induction c with
  | nil => rfl
  | cons p rest ih =>
    obtain ⟨k, r⟩ := p
    by_cases hk : k = v
    · subst hk
      simp [eraseKey, cacheMatch, ih, Ne.symm h]
    · by_cases hku : k = u
      · subst hku
        simp [eraseKey, hk, cacheMatch]
      · simp [eraseKey, hk, cacheMatch, hku, ih]

theorem cacheMatch_put_ne (c : Cache) {u v : String} (r : SWResponse) (h : u ≠ v) :
    cacheMatch (cachePut c v r) u = cacheMatch c u := by
  simp [cachePut, cacheMatch, Ne.symm h, cacheMatch_eraseKey_ne c h]

theorem str_append_assoc (a b c : String) : a ++ b ++ c = a ++ (b ++ c) := by
  obtain ⟨la⟩ := a
  obtain ⟨lb⟩ := b
  obtain ⟨lc⟩ := c
  show String.mk (la ++ lb ++ lc) = String.mk (la ++ (lb ++ lc))
  rw [List.append_assoc]

theorem cacheAdd_ok {net : String → Except JsError SWResponse} {u : String}
    {r : SWResponse} (h : net u = .ok r) (cache : Cache) :
    cacheAdd net cache u =
      if 200 ≤ r.status ∧ r.status < 300 then cachePut cache u r else cache := by
  unfold cacheAdd
  rw [h]

theorem cacheAdd_err {net : String → Except JsError SWResponse} {u : String}
    {e : JsError} (h : net u = .error e) (cache : Cache) :
    cacheAdd net cache u = cache := by
  unfold cacheAdd
  rw [h]

/-- A cache entry for `u` that agrees with what the network returns for `u`
survives a best-effort prefetch pass. -/
theorem precache_lookup_preserved (net : String → Except JsError SWResponse)
    (u : String) (r : SWResponse) (hnet : net u = .ok r) :
    ∀ (urls : List String) (cache : Cache), cacheMatch cache u = some r →
      cacheMatch (precacheDatasets net cache urls) u = some r := by
  intro urls
  induction urls with
  | nil => intro cache h; exact h
  | cons v rest ih =>
    intro cache h
    apply ih
    by_cases hv : u = v
    · subst hv
      rw [cacheAdd_ok hnet cache]
      split_ifs with h2
      · exact cacheMatch_put_self cache u r
      · exact h
    · cases hnv : net v with
      | ok rv =>
        rw [cacheAdd_ok hnv cache]
        split_ifs with h2
        · rw [cacheMatch_put_ne cache rv hv]; exact h
        · exact h
      | error err =>
        rw [cacheAdd_err hnv cache]
        exact h

/-- Every URL of a prefetch pass whose fetch succeeds with an ok status is
present in the resulting cache with the fetched response. -/
theorem precache_stores (net : String → Except JsError SWResponse)
    (u : String) (r : SWResponse) (hnet : net u = .ok r)
    (h2 : 200 ≤ r.status) (h3 : r.status < 300) :
    ∀ (urls : List String) (cache : Cache), u ∈ urls →
      cacheMatch (precacheDatasets net cache urls) u = some r := by
  intro urls
  induction urls with
  | nil => intro cache hu; cases hu
  | cons v rest ih =>
    intro cache hu
    rcases List.mem_cons.mp hu with hv | hrest
    · subst hv
      apply precache_lookup_preserved net u r hnet rest
      rw [cacheAdd_ok hnet cache, if_pos ⟨h2, h3⟩]
      exact cacheMatch_put_self cache u r
    · exact ih (cacheAdd net cache v) hrest

/-- On a sorted queue, every entry still queued after a replay pass is
within the retention window. -/
theorem replayQueue_remaining_fresh (net : SWRequest → Except JsError SWResponse)
    (now : Nat) :
    ∀ q : List QueueEntry, TimestampSorted q →
      ∀ e ∈ (replayQueue net now q).1, now - e.timestamp ≤ maxRetentionMs := by
  intro q
  induction q with
  | nil => intro _ e he; simp [replayQueue] at he
  | cons a rest ih =>
    intro hs e he
    obtain ⟨hhead, hs'⟩ := List.pairwise_cons.mp hs
    unfold replayQueue at he
    by_cases hexp : maxRetentionMs < now - a.timestamp
    · rw [if_pos hexp] at he
      exact ih hs' e he
    · rw [if_neg hexp] at he
      cases hnv : net a.request with
      | ok resp =>
        rw [hnv] at he
        exact ih hs' e he
      | error err =>
        rw [hnv] at he
        rcases List.mem_cons.mp he with rfl | hmem
        · exact Nat.le_of_not_lt hexp
        · exact le_trans (Nat.sub_le_sub_left (hhead e hmem) now) (Nat.le_of_not_lt hexp)

/-- On a sorted queue, every request attempted during a replay pass belongs
to an entry that is within the retention window. -/
theorem replayQueue_attempts_fresh (net : SWRequest → Except JsError SWResponse)
    (now : Nat) :
    ∀ q : List QueueEntry, TimestampSorted q →
      ∀ r ∈ (replayQueue net now q).2,
        ∃ e ∈ q, e.request = r ∧ now - e.timestamp ≤ maxRetentionMs := by
  intro q
  induction q with
  | nil => intro _ r hr; simp [replayQueue] at hr
  | cons a rest ih =>
    intro hs r hr
    obtain ⟨hhead, hs'⟩ := List.pairwise_cons.mp hs
    unfold replayQueue at hr
    by_cases hexp : maxRetentionMs < now - a.timestamp
    · rw [if_pos hexp] at hr
      obtain ⟨e, he, hreq, hfresh⟩ := ih hs' r hr
      exact ⟨e, List.mem_cons_of_mem a he, hreq, hfresh⟩
    · rw [if_neg hexp] at hr
      cases hnv : net a.request with
      | ok resp =>
        rw [hnv] at hr
        rcases List.mem_cons.mp hr with rfl | hmem
        · exact ⟨a, List.mem_cons_self a rest, rfl, Nat.le_of_not_lt hexp⟩
        · obtain ⟨e, he, hreq, hfresh⟩ := ih hs' r hmem
          exact ⟨e, List.mem_cons_of_mem a he, hreq, hfresh⟩
      | error err =>
        rw [hnv] at hr
        rcases List.mem_cons.mp hr with rfl | hmem
        · exact ⟨a, List.mem_cons_self a rest, rfl, Nat.le_of_not_lt hexp⟩
        · cases hmem

/-- Delivering `PRECACHE_LATEST_DATASETS` runs the prefetch loop over the
manifest and posts `OFFLINE_READY` to every client, without skipWaiting. -/
theorem handleMessage_precache_eq (net : String → Except JsError SWResponse)
    (apiUrl : String) (clients : List Nat) (cache : Cache) :
    handleMessage net apiUrl clients cache (some "PRECACHE_LATEST_DATASETS") =
      (precacheDatasets net cache (datasets apiUrl),
       clients.map (fun c => (c, "OFFLINE_READY")), false) := rfl

/-! ## Claim theorems -/

/-- C1: for every POST request matched to the advice-submission route whose
network fetch throws, the handler enqueues exactly one entry capturing the
original (non-rewritten) request and returns the distinguished queued
acknowledgement — HTTP status 202 with the exact JSON body
`queuedBodyString` — instead of propagating the error (the handler returns
a response in every case; no error escapes it). -/
theorem advicePost_failure_returns_queued_ack (hostname : String) (env : Option String)
    (net : SWRequest → Except JsError SWResponse) (queue : List QueueEntry)
    (now : Nat) (req : SWRequest) (e : JsError)
    (h : net (modifiedRequest hostname env req) = .error e) :
    adviceHandler hostname env net queue now req =
      (queuedResponse, queue ++ [⟨req, now⟩]) ∧
    queuedResponse.status = 202 ∧
    queuedResponse.body = queuedBodyString := by
  refine ⟨?_, rfl, rfl⟩
  unfold adviceHandler
  rw [h]

/-- C1 witness: a concrete offline advice submission is acknowledged with
the 202 queued response and appended to the queue. -/
theorem advicePost_failure_returns_queued_ack_witness :
    adviceHandler "localhost" none netDownReq [] 0 reqAdvice =
      (queuedResponse, [] ++ [⟨reqAdvice, 0⟩]) ∧
    queuedResponse.status = 202 ∧
    queuedResponse.body = queuedBodyString :=
  advicePost_failure_returns_queued_ack "localhost" none netDownReq [] 0 reqAdvice
    (.networkError "Failed to fetch") rfl

/-- C2 (code bug): at a matched GET URL with a prior cached entry and a
network that would answer successfully with a fresh response, the handler
as written stores nothing (the "api-data" partition is unchanged and no
fetch is issued, because the strategy class is invoked without `new` and
throws before fetching), whereas the intended stale-while-revalidate
read-through would overwrite the entry with the fresh response. -/
theorem dataRoute_revalidation_never_stores :
    (dataRouteHandler netOk cacheOne "/weather").cache = cacheOne ∧
    (dataRouteHandler netOk cacheOne "/weather").fetches = [] ∧
    (dataRouteHandler netOk cacheOne "/weather").result = .ok respOld ∧
    (specReadThrough netOk cacheOne "/weather").cache = cachePut cacheOne "/weather" respFresh ∧
    cacheMatch (cachePut cacheOne "/weather" respFresh) "/weather" = some respFresh ∧
    respFresh ≠ respOld := by
  refine ⟨rfl, rfl, rfl, rfl, rfl, ?_⟩
  decide

/-- C3: a matched GET whose URL has a stored entry in the "api-data"
partition returns that cached response — for any network, in particular one
on which every fetch fails — and leaves the cache unchanged with no fetch
issued. -/
theorem dataRoute_serves_cached_when_network_fails
    (net : String → Except JsError SWResponse) (cache : Cache) (url : String)
    (r : SWResponse) (h : cacheMatch cache url = some r) :
    dataRouteHandler net cache url = ⟨.ok r, cache, []⟩ := by
  unfold dataRouteHandler
  rw [h]

/-- C3 witness: a cached `/weather` entry is served unchanged while the
network is unreachable. -/
theorem dataRoute_serves_cached_when_network_fails_witness :
    dataRouteHandler netDown cacheOne "/weather" = ⟨.ok respOld, cacheOne, []⟩ :=
  dataRoute_serves_cached_when_network_fails netDown cacheOne "/weather" respOld rfl

/-- C4 counterexample: `/api/weather` ends with the allow-listed segment
`/weather` (without a `/backend/` prefix), so the claim says the data route
matches it, but the matcher as written rejects it (its first regex is
anchored at the start, requiring the whole pathname to equal `/weather`). -/
theorem dataRoute_matcher_counterexample :
    strEndsWith "/weather" "/api/weather" = true ∧
    dataRouteMatches "GET" "/api/weather" = false := by
  decide

/-- C4 amended: a GET request matches the data route exactly when its
pathname equals one of `/weather`, `/market`, `/calendar`, `/advisories`,
or begins with `/backend/` immediately followed by one of those segments
(with any continuation, since the second regex has no end anchor). -/
theorem dataRoute_matcher_amended (p : String) :
    dataRouteMatches "GET" p = true ↔
      ((p = "/weather" ∨ p = "/market" ∨ p = "/calendar" ∨ p = "/advisories") ∨
       (strStartsWith "/backend/weather" p = true ∨
        strStartsWith "/backend/market" p = true ∨
        strStartsWith "/backend/calendar" p = true ∨
        strStartsWith "/backend/advisories" p = true)) := by
  unfold dataRouteMatches dataRouteCapture matchExactDataPath matchBackendDataPath dataSegments
  simp only [List.any_cons, List.any_nil,
    show ("/" : String) ++ "weather" = "/weather" from rfl,
    show ("/" : String) ++ "market" = "/market" from rfl,
    show ("/" : String) ++ "calendar" = "/calendar" from rfl,
    show ("/" : String) ++ "advisories" = "/advisories" from rfl,
    show ("/backend/" : String) ++ "weather" = "/backend/weather" from rfl,
    show ("/backend/" : String) ++ "market" = "/backend/market" from rfl,
    show ("/backend/" : String) ++ "calendar" = "/backend/calendar" from rfl,
    show ("/backend/" : String) ++ "advisories" = "/backend/advisories" from rfl]
  simp [beq_iff_eq, or_assoc]

/-- C5 counterexample: a matched POST advice request whose original
credentials mode is the browser default `same-origin` is rewritten into a
request whose credentials mode is `include`: the rewriting step does not
preserve the credentials mode (lines 86-87 set `mode: 'cors'` and
`credentials: 'include'` unconditionally). -/
theorem modifiedRequest_counterexample :
    adviceRouteMatches reqAdvice.method reqAdvice.url = true ∧
    (modifiedRequest "localhost" none reqAdvice).credentials ≠ reqAdvice.credentials := by
  decide

/-- C5 amended: the URL-rewriting step preserves the original request's
method, headers and body exactly, but sets the mode to `cors` and the
credentials mode to `include` unconditionally (regardless of the original
request's values); only the URL, mode and credentials can change. -/
theorem modifiedRequest_amended (hostname : String) (env : Option String) (r : SWRequest) :
    (modifiedRequest hostname env r).method = r.method ∧
    (modifiedRequest hostname env r).headers = r.headers ∧
    (modifiedRequest hostname env r).body = r.body ∧
    (modifiedRequest hostname env r).mode = "cors" ∧
    (modifiedRequest hostname env r).credentials = "include" :=
  ⟨rfl, rfl, rfl, rfl, rfl⟩

/-- C6: a `PRECACHE_LATEST_DATASETS` trigger on a network where some
manifest fetches fail stores every successfully fetched (2xx) manifest URL
in the "api-data" partition and posts `OFFLINE_READY` to every active
client, regardless of how many fetches failed (per-URL errors are
swallowed). -/
theorem precache_best_effort (net : String → Except JsError SWResponse)
    (apiUrl : String) (clients : List Nat) (cache : Cache)
    (u : String) (r : SWResponse) (hu : u ∈ datasets apiUrl)
    (hnet : net u = .ok r) (h2 : 200 ≤ r.status) (h3 : r.status < 300) :
    cacheMatch (handleMessage net apiUrl clients cache
      (some "PRECACHE_LATEST_DATASETS")).1 u = some r ∧
    (handleMessage net apiUrl clients cache (some "PRECACHE_LATEST_DATASETS")).2.1 =
      clients.map (fun c => (c, "OFFLINE_READY")) := by
  rw [handleMessage_precache_eq]
  exact ⟨precache_stores net u r hnet h2 h3 (datasets apiUrl) cache hu, rfl⟩

/-- C6 witness: with the market fetch failing and the others succeeding,
the weather URL is cached and both clients receive `OFFLINE_READY`. -/
theorem precache_best_effort_witness :
    cacheMatch (handleMessage netPartial "http://localhost:5001" [0, 1] []
      (some "PRECACHE_LATEST_DATASETS")).1
      ("http://localhost:5001" ++ "/weather?district=Kanpur") = some respFresh ∧
    (handleMessage netPartial "http://localhost:5001" [0, 1] []
      (some "PRECACHE_LATEST_DATASETS")).2.1 =
      [0, 1].map (fun c => (c, "OFFLINE_READY")) :=
  precache_best_effort netPartial "http://localhost:5001" [0, 1] []
    ("http://localhost:5001" ++ "/weather?district=Kanpur") respFresh
    (by decide) rfl (by decide) (by decide)

/-- C7 counterexample: for a user profile with district `Lucknow` and
default crop `Rice`, the manifest the code builds is not the
profile-derived manifest the claim describes — the code's URLs hard-code
district `Kanpur` and crop `Wheat`. -/
theorem prefetch_manifest_counterexample :
    datasets "http://localhost:5001" ≠
      specProfileManifest "http://localhost:5001" ⟨"Lucknow", "Rice"⟩ := by
  decide

/-- C7 amended: the prefetch manifest is fixed and independent of any user
profile: for every backend origin it equals the profile-derived manifest
evaluated at the hard-coded district `Kanpur` and crop `Wheat`. -/
theorem prefetch_manifest_fixed (apiUrl : String) :
    datasets apiUrl = specProfileManifest apiUrl ⟨"Kanpur", "Wheat"⟩ := by
  unfold datasets specProfileManifest
  simp only [str_append_assoc]
  rfl

/-- C8: on a queue whose timestamps are nondecreasing (entries are appended
at enqueue time), an entry older than the 24-hour retention window at
replay time is dropped by the next replay pass — it is no longer queued
afterwards — and no replay attempt is made for it (every attempted request
belongs to a different, unexpired entry). -/
theorem stale_entry_dropped_without_replay (net : SWRequest → Except JsError SWResponse)
    (now : Nat) (q : List QueueEntry) (hq : TimestampSorted q)
    (e : QueueEntry) (he : e ∈ q) (hstale : maxRetentionMs < now - e.timestamp) :
    e ∉ (replayQueue net now q).1 ∧
    ∀ r ∈ (replayQueue net now q).2, ∃ e' ∈ q, e' ≠ e ∧ e'.request = r := by
  constructor
  · intro hmem
    exact absurd hstale (Nat.not_lt.mpr (replayQueue_remaining_fresh net now q hq e hmem))
  · intro r hr
    obtain ⟨e', he', hreq, hfresh⟩ := replayQueue_attempts_fresh net now q hq r hr
    refine ⟨e', he', ?_, hreq⟩
    intro heq
    subst heq
    exact absurd hstale (Nat.not_lt.mpr hfresh)

/-- C8 witness: an advice request enqueued at time 0 is dropped without a
replay attempt by a replay pass 25 hours (90000000 ms) later. -/
theorem stale_entry_dropped_without_replay_witness :
    (⟨reqAdvice, 0⟩ : QueueEntry) ∉ (replayQueue netDownReq 90000000 [⟨reqAdvice, 0⟩]).1 ∧
    ∀ r ∈ (replayQueue netDownReq 90000000 [⟨reqAdvice, 0⟩]).2,
      ∃ e' ∈ [(⟨reqAdvice, 0⟩ : QueueEntry)], e' ≠ ⟨reqAdvice, 0⟩ ∧ e'.request = r :=
  stale_entry_dropped_without_replay netDownReq 90000000 [⟨reqAdvice, 0⟩]
    (by simp [TimestampSorted]) ⟨reqAdvice, 0⟩ (by simp) (by decide)

/-- C10: a control-channel message whose data is absent or whose type is
neither `SKIP_WAITING` nor `PRECACHE_LATEST_DATASETS` is a no-op: the cache
partition is unchanged, nothing is posted to any client, and the worker is
not activated (`skipWaiting` is not invoked); neither listener touches the
advice queue at all. -/
theorem unknown_message_noop (net : String → Except JsError SWResponse)
    (apiUrl : String) (clients : List Nat) (cache : Cache) (data : Option String)
    (h1 : data ≠ some "SKIP_WAITING") (h2 : data ≠ some "PRECACHE_LATEST_DATASETS") :
    handleMessage net apiUrl clients cache data = (cache, [], false) := by
  have b1 : (data == some "SKIP_WAITING") = false := beq_eq_false_iff_ne.mpr h1
  have b2 : (data == some "PRECACHE_LATEST_DATASETS") = false := beq_eq_false_iff_ne.mpr h2
  simp [handleMessage, b1, b2]

/-- C10 witness: a message of unknown type `PING` changes nothing and posts
nothing. -/
theorem unknown_message_noop_witness :
    handleMessage netOk "http://localhost:5001" [0] cacheOne (some "PING") =
      (cacheOne, [], false) :=
  unknown_message_noop netOk "http://localhost:5001" [0] cacheOne (some "PING")
    (by decide) (by decide)

/-- C9 (code bug): at a matched GET URL with no cached entry and an
unreachable network, the handler as written propagates the TypeError from
the strategy invocation (no network fetch is ever attempted), not the
underlying network error that the intended read-through would propagate. -/
theorem dataRoute_miss_propagates_typeError :
    (dataRouteHandler netDown [] "/weather").result = .error strategyInvocationError ∧
    (dataRouteHandler netDown [] "/weather").fetches = [] ∧
    (specReadThrough netDown [] "/weather").result = .error (.networkError "Failed to fetch") ∧
    strategyInvocationError ≠ .networkError "Failed to fetch" := by
  refine ⟨rfl, rfl, rfl, ?_⟩
  decide

end KrishiMitra
